import Mathlib

/-!
# Training charger firmware: screen / firing controller

A shallow embedding of `src/dist/samples/training-charger.cpp`: the global
variables of the sketch together with the two output pins form one record
(`Device`), every function that touches them becomes a function on that
record, and every `digitalWrite` issued on the way is reported in a list next
to the resulting record.  Rendering calls (`tft.*`), serial logging and
`delay` change none of the modelled variables and are left out.

Conventions
* `int` variables are `Int`; the code never takes them near the limits of the
  C type when started from the power-on values.
* `unsigned long` is the 32-bit counter of the target board: readings of
  `millis()` are natural numbers below `2^32` and subtraction wraps.
* `uint16_t` touch coordinates are natural numbers.
-/

namespace TrainingCharger

/-! ## Data model -/

/-- Logic level of a digital pin (`LOW` / `HIGH`). -/
inductive Level where
  | LOW
  | HIGH
deriving DecidableEq, Repr

/-- The source enum `InputState { ON, OFF }`. -/
inductive InputState where
  | ON
  | OFF
deriving DecidableEq, Repr

/-- The source enum `State { HOME, OUTPUT_SELECT, DURATION_CONFIG, FIRING, DONE }`. -/
inductive State where
  | HOME
  | OUTPUT_SELECT
  | DURATION_CONFIG
  | FIRING
  | DONE
deriving DecidableEq, Repr

/-- Pin number of output 1 (`#define output1Pin 12`). -/
def output1Pin : Nat := 12

/-- Pin number of output 2 (`#define output2Pin 14`). -/
def output2Pin : Nat := 14

/-- Width of the display in pixels (`#define SCREEN_WIDTH 480`). -/
def SCREEN_WIDTH : Nat := 480

/-- Height of the display in pixels (`#define SCREEN_HEIGHT 320`). -/
def SCREEN_HEIGHT : Nat := 320

/-- Step of the duration buttons (`#define INCREMENT 100`). -/
def INCREMENT : Int := 100

/-- Largest duration (`#define MAX_DURATION 10000`). -/
def MAX_DURATION : Int := 10000

/-- Smallest duration (`#define MIN_DURATION 100`). -/
def MIN_DURATION : Int := 100

/-- Number of values of an `unsigned long` on the target (32 bits). -/
def ULONG_MOD : Nat := 4294967296

/-- One `digitalWrite(pin, level)` call. -/
abbrev PinWrite := Nat × Level

/-- The global variables of the sketch and the levels of the two output pins. -/
structure Device where
  /-- The global `int firingDuration`. -/
  firingDuration : Int
  /-- The global `int selectedOutput`. -/
  selectedOutput : Int
  /-- The global `unsigned long firingStartTime`. -/
  firingStartTime : Nat
  /-- The global `bool isFiring`. -/
  isFiring : Bool
  /-- The global `State curState`. -/
  curState : State
  /-- The global `State prevState`. -/
  prevState : State
  /-- The global `bool minusButtonEnabled`. -/
  minusButtonEnabled : Bool
  /-- The global `bool plusButtonEnabled`. -/
  plusButtonEnabled : Bool
  /-- The global `InputState plusButtonState`. -/
  plusButtonState : InputState
  /-- Level last written to `output1Pin`. -/
  out1 : Level
  /-- Level last written to `output2Pin`. -/
  out2 : Level
deriving DecidableEq, Repr

/-- What one iteration of `loop` reads from the outside world. -/
structure Input where
  /-- Result of `digitalRead(touchPin)` (line 359). -/
  touchPin : Level
  /-- Uptime in ms when `millis()` is read in the timer check (line 365). -/
  clockTimer : Nat
  /-- Result of `tft.getTouch(&x, &y)`: `none` when it returns false. -/
  touch : Option (Nat × Nat)
  /-- Uptime in ms when `millis()` is read inside `startFiring` (line 309). -/
  clockStart : Nat
deriving DecidableEq, Repr

/-- The globals as initialised at their declarations, after `setup` has
written both outputs LOW (lines 7-10, 228-229, 240-241, 278-280). -/
def powerOn : Device :=
  { firingDuration := 1000
    selectedOutput := 1
    firingStartTime := 0
    isFiring := false
    curState := State.HOME
    prevState := State.DONE
    minusButtonEnabled := false
    plusButtonEnabled := false
    plusButtonState := InputState.OFF
    out1 := Level.LOW
    out2 := Level.LOW }

/-! ## Machine arithmetic -/

/-- Value returned by `millis()` when the uptime is `clock` ms: the counter is
an `unsigned long`, so it shows the uptime modulo `2^32`. -/
def millis (clock : Nat) : Nat := clock % ULONG_MOD

/-- Conversion of an `int` to `unsigned long` (value modulo `2^32`). -/
def toULong (n : Int) : Nat := (n % (ULONG_MOD : Int)).toNat

/-- Subtraction of two `unsigned long` values (wraps modulo `2^32`). -/
def subULong (a b : Nat) : Nat := (a % ULONG_MOD + ULONG_MOD - b % ULONG_MOD) % ULONG_MOD

/-! ## Operations -/

/-- The effect of `digitalWrite(pin, level)` on the device, and the write issued. -/
def digitalWrite (pin : Nat) (level : Level) (d : Device) : Device × List PinWrite :=
  (if pin = output1Pin then { d with out1 := level }
   else if pin = output2Pin then { d with out2 := level }
   else d,
   [(pin, level)])

/-- Source `incrementDuration` (lines 291-297). -/
def incrementDuration (d : Device) : Device :=
  let d1 := { d with firingDuration := d.firingDuration + INCREMENT }
  if d1.firingDuration > MAX_DURATION then { d1 with firingDuration := MAX_DURATION } else d1

/-- Source `decrementDuration` (lines 299-305). -/
def decrementDuration (d : Device) : Device :=
  let d1 := { d with firingDuration := d.firingDuration - INCREMENT }
  if d1.firingDuration < MIN_DURATION then { d1 with firingDuration := MIN_DURATION } else d1

/-- Source `startFiring` (lines 307-316); `clock` is the uptime at its `millis()` call. -/
def startFiring (clock : Nat) (d : Device) : Device × List PinWrite :=
  let d1 := { d with isFiring := true, firingStartTime := millis clock }
  if d1.selectedOutput = 1 then digitalWrite output1Pin Level.HIGH d1
  else digitalWrite output2Pin Level.HIGH d1

/-- Source `stopFiring` (lines 318-322). -/
def stopFiring (d : Device) : Device × List PinWrite :=
  let d1 := { d with isFiring := false }
  let r2 := digitalWrite output1Pin Level.LOW d1
  let r3 := digitalWrite output2Pin Level.LOW r2.1
  (r3.1, r2.2 ++ r3.2)

/-- The `remaining` value computed in `drawFiringScreen` (lines 327-330);
`clock` is the uptime at its `millis()` call. -/
def drawFiringScreen_remaining (clock : Nat) (d : Device) : Nat :=
  let elapsed := subULong (millis clock) d.firingStartTime
  let remaining := subULong (toULong d.firingDuration) elapsed
  if remaining > toULong d.firingDuration then 0 else remaining

/-- Condition of the `HOME` touch test (line 398). -/
def homeRegion (x y : Nat) : Prop := x > 65 ∧ x < SCREEN_WIDTH - 65 ∧ y > 238 ∧ y < 293

/-- Condition of the "Output 1 selection" touch test (line 415). -/
def out1Region (x y : Nat) : Prop := x > 58 ∧ x < 138 ∧ y > 66 ∧ y < 101

/-- Condition of the "Output 2 selection" touch test (line 420). -/
def out2Region (x y : Nat) : Prop := x > 148 ∧ x < 228 ∧ y > 66 ∧ y < 101

/-- Condition of the "Decrement duration" touch test (line 425). -/
def decrementRegion (x y : Nat) : Prop := x < SCREEN_WIDTH / 2 ∧ y > 2 * SCREEN_HEIGHT / 3

/-- Condition of the "Increment duration" touch test (line 429). -/
def incrementRegion (x y : Nat) : Prop := x > SCREEN_WIDTH / 2 ∧ y > 2 * SCREEN_HEIGHT / 3

/-- Condition of the "Fire button" touch test (line 433). -/
def fireRegion (x y : Nat) : Prop := x > SCREEN_WIDTH - 120 ∧ y > 140 ∧ y < 180

instance (x y : Nat) : Decidable (homeRegion x y) :=
  inferInstanceAs (Decidable (x > 65 ∧ x < SCREEN_WIDTH - 65 ∧ y > 238 ∧ y < 293))

instance (x y : Nat) : Decidable (out1Region x y) :=
  inferInstanceAs (Decidable (x > 58 ∧ x < 138 ∧ y > 66 ∧ y < 101))

instance (x y : Nat) : Decidable (out2Region x y) :=
  inferInstanceAs (Decidable (x > 148 ∧ x < 228 ∧ y > 66 ∧ y < 101))

instance (x y : Nat) : Decidable (decrementRegion x y) :=
  inferInstanceAs (Decidable (x < SCREEN_WIDTH / 2 ∧ y > 2 * SCREEN_HEIGHT / 3))

instance (x y : Nat) : Decidable (incrementRegion x y) :=
  inferInstanceAs (Decidable (x > SCREEN_WIDTH / 2 ∧ y > 2 * SCREEN_HEIGHT / 3))

instance (x y : Nat) : Decidable (fireRegion x y) :=
  inferInstanceAs (Decidable (x > SCREEN_WIDTH - 120 ∧ y > 140 ∧ y < 180))

/-- Body of the "Fire button" branch (lines 434-435): `startFiring(); curState = FIRING;`. -/
def loopFire (clock : Nat) (d : Device) : Device × List PinWrite :=
  let r := startFiring clock d
  ({ r.1 with curState := State.FIRING }, r.2)

/-- Reading of the auxiliary contact at the top of `loop` (lines 359-363). -/
def loopReadTouchPin (inp : Input) (d : Device) : Device :=
  let newTouchButtonState := if inp.touchPin = Level.LOW then InputState.ON else InputState.OFF
  if newTouchButtonState ≠ d.plusButtonState then
    { d with plusButtonState := newTouchButtonState }
  else d

/-- Timer check of `loop` (lines 365-368). -/
def loopTimerCheck (clock : Nat) (d : Device) : Device × List PinWrite :=
  if d.isFiring = true ∧ subULong (millis clock) d.firingStartTime ≥ toULong d.firingDuration then
    let r := stopFiring d
    ({ r.1 with curState := State.DURATION_CONFIG }, r.2)
  else (d, [])

/-- The `HOME` arm of `loop` (lines 382-402). -/
def loopHome (inp : Input) (d : Device) : Device × List PinWrite :=
  let d1 := if d.curState ≠ d.prevState then
      { d with plusButtonEnabled := false, minusButtonEnabled := false, prevState := d.curState }
    else d
  match inp.touch with
  | some (x, y) =>
    if homeRegion x y then
      ({ d1 with curState := State.DURATION_CONFIG }, [])
    else (d1, [])
  | none => (d1, [])

/-- The `DURATION_CONFIG` arm of `loop` (lines 403-437). -/
def loopDurationConfig (inp : Input) (d : Device) : Device × List PinWrite :=
  let d1 := if d.curState ≠ d.prevState then
      { d with prevState := d.curState, minusButtonEnabled := true, plusButtonEnabled := true }
    else d
  match inp.touch with
  | some (x, y) =>
    if out1Region x y then
      ({ d1 with selectedOutput := 1 }, [])
    else if out2Region x y then
      ({ d1 with selectedOutput := 2 }, [])
    else if decrementRegion x y then
      (decrementDuration d1, [])
    else if incrementRegion x y then
      (incrementDuration d1, [])
    else if fireRegion x y then
      loopFire inp.clockStart d1
    else (d1, [])
  | none => (d1, [])

/-- The `FIRING` arm of `loop` (lines 438-449). -/
def loopFiring (d : Device) : Device × List PinWrite :=
  let d1 := if d.curState ≠ d.prevState then
      { d with prevState := d.curState, minusButtonEnabled := false, plusButtonEnabled := false }
    else d
  if d1.isFiring = false then ({ d1 with curState := State.DURATION_CONFIG }, []) else (d1, [])

/-- Per-screen dispatch of `loop` (lines 382-449): an `if / else if` chain on `curState`. -/
def loopDispatch (inp : Input) (d : Device) : Device × List PinWrite :=
  if d.curState = State.HOME then loopHome inp d
  else if d.curState = State.DURATION_CONFIG then loopDurationConfig inp d
  else if d.curState = State.FIRING then loopFiring d
  else (d, [])

/-- Source `loop` (lines 358-452): the device after one iteration and the
pin writes issued during it, in order. -/
def loop (inp : Input) (d : Device) : Device × List PinWrite :=
  let d0 := loopReadTouchPin inp d
  let r1 := loopTimerCheck inp.clockTimer d0
  let r2 := loopDispatch inp r1.1
  (r2.1, r1.2 ++ r2.2)

/-- The device after running `loop` once for each input, first input first. -/
def run (d : Device) : List Input → Device
  | [] => d
  | inp :: rest => run (loop inp d).1 rest

/-- The pin writes issued while running `loop` once for each input, in order. -/
def runWrites (d : Device) : List Input → List PinWrite
  | [] => []
  | inp :: rest => (loop inp d).2 ++ runWrites (loop inp d).1 rest

/-- The screen on which `loop` dispatches the touch sample of this iteration:
`curState` as it is when the `if / else if` chain of line 382 is entered. -/
def dispatchScreen (inp : Input) (d : Device) : State :=
  (loopTimerCheck inp.clockTimer (loopReadTouchPin inp d)).1.curState

/-- The touch tests of the arm of `loop` for screen `scr`: the point meets one of them. -/
def hitsRegion (scr : State) (x y : Nat) : Prop :=
  match scr with
  | State.HOME => homeRegion x y
  | State.DURATION_CONFIG =>
    out1Region x y ∨ out2Region x y ∨ decrementRegion x y ∨ incrementRegion x y ∨ fireRegion x y
  | _ => False

instance (scr : State) (x y : Nat) : Decidable (hitsRegion scr x y) :=
  match scr with
  | State.HOME => inferInstanceAs (Decidable (homeRegion x y))
  | State.DURATION_CONFIG =>
    inferInstanceAs (Decidable (out1Region x y ∨ out2Region x y ∨ decrementRegion x y ∨
      incrementRegion x y ∨ fireRegion x y))
  | State.OUTPUT_SELECT => isFalse (fun h => h)
  | State.FIRING => isFalse (fun h => h)
  | State.DONE => isFalse (fun h => h)

/-- Level of the pin of output `n` (1 or 2). -/
def outLevel (d : Device) (n : Int) : Level := if n = 1 then d.out1 else d.out2

/-- Consistency of the session flag with the screen and the two outputs: with
no session both outputs are LOW; with a session the screen is `FIRING`, the
selected output is HIGH and the other one LOW; the selection is 1 or 2. -/
def Consistent (d : Device) : Prop :=
  (d.isFiring = false → d.out1 = Level.LOW ∧ d.out2 = Level.LOW) ∧
  (d.isFiring = true → d.curState = State.FIRING ∧
    ((d.selectedOutput = 1 ∧ d.out1 = Level.HIGH ∧ d.out2 = Level.LOW) ∨
     (d.selectedOutput = 2 ∧ d.out2 = Level.HIGH ∧ d.out1 = Level.LOW))) ∧
  (d.selectedOutput = 1 ∨ d.selectedOutput = 2)

/-- An iteration at uptime `clock` with the screen touched at `(x, y)` and the
auxiliary contact open. -/
def touchAt (clock x y : Nat) : Input :=
  { touchPin := Level.HIGH, clockTimer := clock, touch := some (x, y), clockStart := clock }

/-- An iteration at uptime `clock` with no touch and the auxiliary contact open. -/
def noTouch (clock : Nat) : Input :=
  { touchPin := Level.HIGH, clockTimer := clock, touch := none, clockStart := clock }

/-- The device after power-on, a touch on CONFIGURE and a touch on FIRE at
uptime 1000 ms: output 1 is firing for 1000 ms since reading 1000. -/
def firingSample : Device := run powerOn [touchAt 0 240 260, touchAt 1000 400 160]

/-- The session-related part of the device: duration, selection, start time,
session flag, screen and the two output levels. -/
def sessionView (d : Device) : Int × Int × Nat × Bool × State × Level × Level :=
  (d.firingDuration, d.selectedOutput, d.firingStartTime, d.isFiring, d.curState, d.out1, d.out2)

/-- The device after power-on and a touch on CONFIGURE: screen
`DURATION_CONFIG`, duration 1000, output 1 selected, no session. -/
def configSample : Device := run powerOn [touchAt 0 240 260]

/-- Inputs of the first scenario: CONFIGURE, then three touches on "+". -/
def scenarioPlus : List Input :=
  [touchAt 0 240 260, touchAt 100 300 260, touchAt 200 300 260, touchAt 300 300 260]

/-- Inputs of the second scenario: CONFIGURE, OUT2, then nine touches on "-". -/
def scenarioMinus : List Input :=
  [touchAt 0 240 260, touchAt 100 200 80, touchAt 200 100 260, touchAt 300 100 260,
   touchAt 400 100 260, touchAt 500 100 260, touchAt 600 100 260, touchAt 700 100 260,
   touchAt 800 100 260, touchAt 900 100 260, touchAt 1000 100 260]

/-- One call of a duration button handler. -/
inductive DurationCall where
  | increment
  | decrement
deriving DecidableEq, Repr

/-- The device after the given calls of `incrementDuration` / `decrementDuration`, in order. -/
def applyCalls (d : Device) : List DurationCall → Device
  | [] => d
  | DurationCall.increment :: rest => applyCalls (incrementDuration d) rest
  | DurationCall.decrement :: rest => applyCalls (decrementDuration d) rest

/-- Clock readings of successive iterations: never decreasing, at most `P` ms
after the previous reading, and below `2^32` (the counter has not wrapped). -/
def ClockSteps (P : Nat) : Nat → List Input → Prop
  | _, [] => True
  | prev, inp :: rest =>
    prev ≤ inp.clockTimer ∧ inp.clockTimer ≤ prev + P ∧ inp.clockTimer < ULONG_MOD ∧
      ClockSteps P inp.clockTimer rest

/-- Decision procedure for `ClockSteps`. -/
def decClockSteps (P : Nat) : (prev : Nat) → (l : List Input) → Decidable (ClockSteps P prev l)
  | _, [] => isTrue trivial
  | prev, inp :: rest =>
    have : Decidable (ClockSteps P inp.clockTimer rest) := decClockSteps P inp.clockTimer rest
    inferInstanceAs (Decidable (prev ≤ inp.clockTimer ∧ inp.clockTimer ≤ prev + P ∧
      inp.clockTimer < ULONG_MOD ∧ ClockSteps P inp.clockTimer rest))

instance (P prev : Nat) (l : List Input) : Decidable (ClockSteps P prev l) :=
  decClockSteps P prev l

/-! ## Theorems -/

/-! ### Machine arithmetic -/
open Level State InputState

/-- An `int` in the range of `unsigned long` converts to itself. -/
theorem toULong_of_nonneg (n : Int) (h0 : 0 ≤ n) (h1 : n < 4294967296) : toULong n = n.toNat := by
  simp only [toULong, ULONG_MOD]
  omega

/-- Unsigned subtraction without borrow. -/
theorem subULong_of_le (a b : Nat) (ha : a < 4294967296) (hb : b ≤ a) : subULong a b = a - b := by
  simp only [subULong, ULONG_MOD]
  omega

/-- Unsigned subtraction with borrow wraps around. -/
theorem subULong_of_lt (a b : Nat) (ha : a < b) (hb : b < 4294967296) :
    subULong a b = a + 4294967296 - b := by
  simp only [subULong, ULONG_MOD]
  omega

/-- Unsigned subtraction stays below `2^32`. -/
theorem subULong_lt (a b : Nat) : subULong a b < 4294967296 := by
  simp only [subULong, ULONG_MOD]
  omega

/-- Unsigned subtraction is the integer difference modulo `2^32`. -/
theorem subULong_cast (a b : Nat) :
    ((subULong a b : Nat) : Int) = ((a : Int) - (b : Int)) % 4294967296 := by
  simp only [subULong, ULONG_MOD]
  omega

/-- Elapsed counter value `k` ms after a reading, modulo `2^32`. -/
theorem subULong_millis_add (t k : Nat) : subULong (millis (t + k)) (millis t) = k % 4294967296 := by
  simp only [subULong, millis, ULONG_MOD]
  omega


/-! ### Duration buttons -/

/-- The function `incrementDuration` adds 100 and clamps at 10000. -/
theorem incrementDuration_eq (d : Device) :
    incrementDuration d = { d with firingDuration := min (d.firingDuration + 100) 10000 } := by
  simp only [incrementDuration, INCREMENT, MAX_DURATION]
  split
  · next h => rw [min_eq_right (by omega)]
  · next h => rw [min_eq_left (by omega)]

/-- The function `decrementDuration` subtracts 100 and clamps at 100. -/
theorem decrementDuration_eq (d : Device) :
    decrementDuration d = { d with firingDuration := max (d.firingDuration - 100) 100 } := by
  simp only [decrementDuration, INCREMENT, MIN_DURATION]
  split
  · next h => rw [max_eq_right (by omega)]
  · next h => rw [max_eq_left (by omega)]

/-- Duration calls keep the duration within [100, 10000]. -/
theorem applyCalls_range (calls : List DurationCall) (d : Device)
    (hlo : 100 ≤ d.firingDuration) (hhi : d.firingDuration ≤ 10000) :
    100 ≤ (applyCalls d calls).firingDuration ∧ (applyCalls d calls).firingDuration ≤ 10000 := by
  induction calls generalizing d with
  | nil => exact ⟨hlo, hhi⟩
  | cons c rest ih =>
    cases c
    · simp only [applyCalls]
      apply ih
      · rw [incrementDuration_eq]; simp only [le_min_iff]; omega
      · rw [incrementDuration_eq]; simp only [min_le_iff]; omega
    · simp only [applyCalls]
      apply ih
      · rw [decrementDuration_eq]; simp only [le_max_iff]; omega
      · rw [decrementDuration_eq]; simp only [max_le_iff]; omega

/-- The duration after `n` decrements in a row. -/
theorem applyCalls_replicate_decrement (n : Nat) (d : Device) (h : 100 ≤ d.firingDuration) :
    (applyCalls d (List.replicate n DurationCall.decrement)).firingDuration
      = max (d.firingDuration - 100 * (n : Int)) 100 := by
  induction n generalizing d with
  | zero => simp [applyCalls, h]
  | succ k ih =>
    rw [List.replicate_succ]
    simp only [applyCalls]
    rw [ih _ (by rw [decrementDuration_eq]; simp only [le_max_iff]; omega), decrementDuration_eq]
    simp only [max_def]
    split_ifs <;> push_cast <;> omega

/-- Claim C5: after any sequence of `incrementDuration` / `decrementDuration`
calls from the default 1000 the duration is within [100, 10000]; a further
increment yields `min (d + 100) 10000` and a further decrement
`max (d - 100) 100`, changing nothing else, so the step is exactly 100 unless
the bound is hit; and 100 decrements from 1000 give 100. -/
theorem duration_calls_spec (calls : List DurationCall) :
    (100 ≤ (applyCalls powerOn calls).firingDuration ∧
      (applyCalls powerOn calls).firingDuration ≤ 10000) ∧
    incrementDuration (applyCalls powerOn calls) =
      { applyCalls powerOn calls with
        firingDuration := min ((applyCalls powerOn calls).firingDuration + 100) 10000 } ∧
    decrementDuration (applyCalls powerOn calls) =
      { applyCalls powerOn calls with
        firingDuration := max ((applyCalls powerOn calls).firingDuration - 100) 100 } ∧
    ((applyCalls powerOn calls).firingDuration + 100 ≤ 10000 →
      (incrementDuration (applyCalls powerOn calls)).firingDuration =
        (applyCalls powerOn calls).firingDuration + 100) ∧
    (10000 < (applyCalls powerOn calls).firingDuration + 100 →
      (incrementDuration (applyCalls powerOn calls)).firingDuration = 10000) ∧
    (100 ≤ (applyCalls powerOn calls).firingDuration - 100 →
      (decrementDuration (applyCalls powerOn calls)).firingDuration =
        (applyCalls powerOn calls).firingDuration - 100) ∧
    ((applyCalls powerOn calls).firingDuration - 100 < 100 →
      (decrementDuration (applyCalls powerOn calls)).firingDuration = 100) ∧
    (applyCalls powerOn (List.replicate 100 DurationCall.decrement)).firingDuration = 100 := by
  refine ⟨applyCalls_range calls powerOn (by decide) (by decide), incrementDuration_eq _,
    decrementDuration_eq _, ?_, ?_, ?_, ?_, ?_⟩
  · intro h; rw [incrementDuration_eq]; exact min_eq_left h
  · intro h; rw [incrementDuration_eq]; exact min_eq_right (le_of_lt h)
  · intro h; rw [decrementDuration_eq]; exact max_eq_left h
  · intro h; rw [decrementDuration_eq]; exact max_eq_right (le_of_lt h)
  · rw [applyCalls_replicate_decrement 100 powerOn (by decide)]
    decide

/-- Claim C5 after three increments: the next increment adds exactly 100. -/
theorem duration_calls_spec_witness :
    (incrementDuration (applyCalls powerOn [DurationCall.increment, DurationCall.increment,
        DurationCall.increment])).firingDuration
      = (applyCalls powerOn [DurationCall.increment, DurationCall.increment,
        DurationCall.increment]).firingDuration + 100 :=
  (duration_calls_spec [DurationCall.increment, DurationCall.increment,
    DurationCall.increment]).2.2.2.1 (by decide)

/-! ### Remaining time shown on the firing screen -/

/-- Claim C10: for a duration in [100, 10000] and any start time and clock
reading, with `elapsed = (now - start) mod 2^32`, the remaining time computed
in `drawFiringScreen` is `max 0 (duration - elapsed)`: `duration - elapsed`
when `elapsed ≤ duration`, 0 when `elapsed > duration`, never above the
duration. -/
theorem remaining_spec (clock : Nat) (d : Device)
    (hlo : 100 ≤ d.firingDuration) (hhi : d.firingDuration ≤ 10000) :
    ((subULong (millis clock) d.firingStartTime : Nat) : Int)
        = ((millis clock : Int) - (d.firingStartTime : Int)) % 4294967296 ∧
    ((drawFiringScreen_remaining clock d : Nat) : Int)
        = max 0 (d.firingDuration - (subULong (millis clock) d.firingStartTime : Nat)) ∧
    (((subULong (millis clock) d.firingStartTime : Nat) : Int) ≤ d.firingDuration →
      ((drawFiringScreen_remaining clock d : Nat) : Int)
        = d.firingDuration - (subULong (millis clock) d.firingStartTime : Nat)) ∧
    (d.firingDuration < ((subULong (millis clock) d.firingStartTime : Nat) : Int) →
      drawFiringScreen_remaining clock d = 0) ∧
    ((drawFiringScreen_remaining clock d : Nat) : Int) ≤ d.firingDuration := by
  have hd : toULong d.firingDuration = d.firingDuration.toNat :=
    toULong_of_nonneg _ (by omega) (by omega)
  have he := subULong_lt (millis clock) d.firingStartTime
  refine ⟨subULong_cast _ _, ?_⟩
  simp only [drawFiringScreen_remaining, hd]
  generalize subULong (millis clock) d.firingStartTime = e at *
  by_cases hle : e ≤ d.firingDuration.toNat
  · rw [subULong_of_le _ _ (by omega) hle]
    rw [if_neg (by omega)]
    omega
  · rw [subULong_of_lt _ _ (by omega) he]
    rw [if_pos (by omega)]
    omega

/-- Claim C10 across a counter wrap (654 ms left) and past the deadline (0). -/
theorem remaining_spec_witness :
    drawFiringScreen_remaining 50 { powerOn with firingStartTime := 4294967000 } = 654 ∧
    drawFiringScreen_remaining 5000 { powerOn with firingStartTime := 100 } = 0 :=
  ⟨by decide,
    (remaining_spec 5000 { powerOn with firingStartTime := 100 } (by decide) (by decide)).2.2.2.1
      (by decide)⟩

/-! ### stopFiring -/

/-- Claim C8: for every device, `stopFiring` clears the session flag, writes
both outputs LOW (two LOW writes, also when nothing was firing), changes no
other field, is idempotent, and leaves a device with no session and both
outputs LOW unchanged. -/
theorem stopFiring_spec (d : Device) :
    stopFiring d = ({ d with isFiring := false, out1 := Level.LOW, out2 := Level.LOW },
      [(output1Pin, Level.LOW), (output2Pin, Level.LOW)]) ∧
    (stopFiring d).1.isFiring = false ∧
    (stopFiring d).1.out1 = Level.LOW ∧ (stopFiring d).1.out2 = Level.LOW ∧
    (stopFiring d).1.firingDuration = d.firingDuration ∧
    (stopFiring d).1.selectedOutput = d.selectedOutput ∧
    (stopFiring d).1.curState = d.curState ∧
    (stopFiring (stopFiring d).1).1 = (stopFiring d).1 ∧
    (d.isFiring = false → d.out1 = Level.LOW → d.out2 = Level.LOW → (stopFiring d).1 = d) := by
  refine ⟨rfl, rfl, rfl, rfl, rfl, rfl, rfl, rfl, ?_⟩
  intro h1 h2 h3
  cases d
  simp only [stopFiring, digitalWrite] at *
  simp [h1, h2, h3, output1Pin, output2Pin]

/-- Claim C8 at power-on: `stopFiring` leaves the device unchanged. -/
theorem stopFiring_spec_witness : (stopFiring powerOn).1 = powerOn :=
  (stopFiring_spec powerOn).2.2.2.2.2.2.2.2 rfl rfl rfl

/-! ### Consistency is preserved by `loop` -/

/-- Reading the auxiliary contact changes `plusButtonState` only. -/
theorem loopReadTouchPin_fields (inp : Input) (d : Device) :
    loopReadTouchPin inp d =
      { d with plusButtonState := (loopReadTouchPin inp d).plusButtonState } := by
  simp only [loopReadTouchPin]
  split_ifs <;> rfl

/-- A device with no session and both outputs LOW is consistent. -/
theorem consistent_of_idle (d : Device) (hf : d.isFiring = false) (h1 : d.out1 = Level.LOW)
    (h2 : d.out2 = Level.LOW) (hs : d.selectedOutput = 1 ∨ d.selectedOutput = 2) :
    Consistent d :=
  ⟨fun _ => ⟨h1, h2⟩, fun h => by rw [hf] at h; exact Bool.noConfusion h, hs⟩

/-- A consistent device away from screen `FIRING` has no session. -/
theorem idle_of_consistent (d : Device) (h : Consistent d) (hs : d.curState ≠ State.FIRING) :
    d.isFiring = false := by
  cases hf : d.isFiring
  · rfl
  · exact absurd (h.2.1 hf).1 hs

/-- Reading the auxiliary contact preserves consistency. -/
theorem consistent_readTouchPin (inp : Input) (d : Device) (h : Consistent d) :
    Consistent (loopReadTouchPin inp d) := by
  rw [loopReadTouchPin_fields]
  exact h

/-- The timer check preserves consistency. -/
theorem consistent_timerCheck (clock : Nat) (d : Device) (h : Consistent d) :
    Consistent (loopTimerCheck clock d).1 := by
  simp only [loopTimerCheck]
  split
  · exact consistent_of_idle _ rfl rfl rfl h.2.2
  · exact h

/-- The `HOME` arm preserves consistency. -/
theorem consistent_home (inp : Input) (d : Device) (h : Consistent d)
    (hs : d.curState = State.HOME) : Consistent (loopHome inp d).1 := by
  have hf : d.isFiring = false := idle_of_consistent d h (by rw [hs]; decide)
  have hl := h.1 hf
  unfold loopHome
  rcases inp.touch with _ | ⟨x, y⟩ <;> simp only [] <;> split_ifs <;>
    exact consistent_of_idle _ hf hl.1 hl.2 h.2.2

/-- Firing from a device with both outputs LOW gives a consistent device. -/
theorem consistent_fire (clock : Nat) (d : Device) (h1 : d.out1 = Level.LOW)
    (h2 : d.out2 = Level.LOW) (hs : d.selectedOutput = 1 ∨ d.selectedOutput = 2) :
    Consistent (loopFire clock d).1 := by
  rcases hs with hs | hs
  · simp [Consistent, loopFire, startFiring, digitalWrite, hs, h2, output1Pin]
  · simp [Consistent, loopFire, startFiring, digitalWrite, hs, h1, output1Pin, output2Pin]

/-- The `DURATION_CONFIG` arm preserves consistency. -/
theorem consistent_durationConfig (inp : Input) (d : Device) (h : Consistent d)
    (hs : d.curState = State.DURATION_CONFIG) : Consistent (loopDurationConfig inp d).1 := by
  have hf : d.isFiring = false := idle_of_consistent d h (by rw [hs]; decide)
  have hl := h.1 hf
  unfold loopDurationConfig
  rcases inp.touch with _ | ⟨x, y⟩ <;> simp only []
  · split_ifs <;> exact consistent_of_idle _ hf hl.1 hl.2 h.2.2
  · split_ifs
    all_goals first
      | exact consistent_of_idle _ hf hl.1 hl.2 h.2.2
      | exact consistent_of_idle _ hf hl.1 hl.2 (Or.inl rfl)
      | exact consistent_of_idle _ hf hl.1 hl.2 (Or.inr rfl)
      | (rw [incrementDuration_eq]; exact consistent_of_idle _ hf hl.1 hl.2 h.2.2)
      | (rw [decrementDuration_eq]; exact consistent_of_idle _ hf hl.1 hl.2 h.2.2)
      | exact consistent_fire _ _ hl.1 hl.2 h.2.2

/-- The `FIRING` arm preserves consistency. -/
theorem consistent_firing (d : Device) (h : Consistent d) : Consistent (loopFiring d).1 := by
  unfold loopFiring
  simp only []
  split_ifs with h1 h2 h2
  · exact consistent_of_idle _ h2 (h.1 h2).1 (h.1 h2).2 h.2.2
  · exact h
  · exact consistent_of_idle _ h2 (h.1 h2).1 (h.1 h2).2 h.2.2
  · exact h

/-- The per-screen dispatch preserves consistency. -/
theorem consistent_dispatch (inp : Input) (d : Device) (h : Consistent d) :
    Consistent (loopDispatch inp d).1 := by
  simp only [loopDispatch]
  split_ifs with h1 h2 h3
  · exact consistent_home inp d h h1
  · exact consistent_durationConfig inp d h h2
  · exact consistent_firing d h
  · exact h

/-- One iteration of `loop` preserves consistency. -/
theorem consistent_loop (inp : Input) (d : Device) (h : Consistent d) :
    Consistent (loop inp d).1 := by
  simp only [loop]
  exact consistent_dispatch _ _ (consistent_timerCheck _ _ (consistent_readTouchPin _ _ h))

/-- The power-on device is consistent. -/
theorem consistent_powerOn : Consistent powerOn := by
  simp [Consistent, powerOn]

/-- Any number of iterations preserves consistency. -/
theorem consistent_run (inps : List Input) (d : Device) (h : Consistent d) :
    Consistent (run d inps) := by
  induction inps generalizing d with
  | nil => exact h
  | cons inp rest ih => exact ih _ (consistent_loop inp d h)

/-- Claim C1: in every state that loop iterations reach from power-on, with
arbitrary clock readings and touch inputs, outputs 1 and 2 are never both
HIGH, and while a session is active the output that is selected is HIGH and
the other one is LOW. -/
theorem outputs_exclusive (inps : List Input) :
    ¬ ((run powerOn inps).out1 = Level.HIGH ∧ (run powerOn inps).out2 = Level.HIGH) ∧
    ((run powerOn inps).isFiring = true →
      ((run powerOn inps).selectedOutput = 1 ∧ (run powerOn inps).out1 = Level.HIGH ∧
          (run powerOn inps).out2 = Level.LOW) ∨
      ((run powerOn inps).selectedOutput = 2 ∧ (run powerOn inps).out2 = Level.HIGH ∧
          (run powerOn inps).out1 = Level.LOW)) := by
  have h := consistent_run inps powerOn consistent_powerOn
  generalize run powerOn inps = d at h
  obtain ⟨h1, h2, _⟩ := h
  refine ⟨?_, fun hf => (h2 hf).2⟩
  rintro ⟨ha, hb⟩
  cases hf : d.isFiring
  · have := (h1 hf).1; rw [ha] at this; exact Level.noConfusion this
  · rcases (h2 hf).2 with ⟨_, _, h⟩ | ⟨_, _, h⟩
    · rw [hb] at h; exact Level.noConfusion h
    · rw [ha] at h; exact Level.noConfusion h


/-- Claim C1 at the sample firing state: output 1 is HIGH and output 2 is LOW. -/
theorem outputs_exclusive_witness :
    ((run powerOn [touchAt 0 240 260, touchAt 1000 400 160]).selectedOutput = 1 ∧
        (run powerOn [touchAt 0 240 260, touchAt 1000 400 160]).out1 = Level.HIGH ∧
        (run powerOn [touchAt 0 240 260, touchAt 1000 400 160]).out2 = Level.LOW) ∨
    ((run powerOn [touchAt 0 240 260, touchAt 1000 400 160]).selectedOutput = 2 ∧
        (run powerOn [touchAt 0 240 260, touchAt 1000 400 160]).out2 = Level.HIGH ∧
        (run powerOn [touchAt 0 240 260, touchAt 1000 400 160]).out1 = Level.LOW) :=
  (outputs_exclusive [touchAt 0 240 260, touchAt 1000 400 160]).2 (by decide)

/-! ### startFiring -/

/-- Claim C7 fails as stated: with no session, output 1 selected and output 2
HIGH, `startFiring` leaves output 2 HIGH; its only pin write is output 1 HIGH. -/
theorem startFiring_writes_other_counterexample :
    ({ powerOn with out2 := Level.HIGH }).isFiring = false ∧
    ({ powerOn with out2 := Level.HIGH }).selectedOutput = 1 ∧
    (startFiring 5 { powerOn with out2 := Level.HIGH }).1.out1 = Level.HIGH ∧
    (startFiring 5 { powerOn with out2 := Level.HIGH }).1.out2 = Level.HIGH ∧
    (startFiring 5 { powerOn with out2 := Level.HIGH }).2 = [(output1Pin, Level.HIGH)] := by
  decide

/-- Claim C7, amended: with no active session and output `n` selected (1 or 2),
`startFiring` sets `isFiring`, stores the clock reading as start time and
issues exactly one pin write, output `n` HIGH; no other field changes, so the
other output keeps its level and reads LOW afterwards whenever it was LOW
before, which holds in every reachable state without a session. -/
theorem startFiring_idle_spec :
    (∀ (clock : Nat) (d : Device), d.isFiring = false →
      (d.selectedOutput = 1 →
        startFiring clock d =
          ({ d with isFiring := true, firingStartTime := millis clock, out1 := Level.HIGH },
            [(output1Pin, Level.HIGH)])) ∧
      (d.selectedOutput = 2 →
        startFiring clock d =
          ({ d with isFiring := true, firingStartTime := millis clock, out2 := Level.HIGH },
            [(output2Pin, Level.HIGH)])) ∧
      (d.selectedOutput = 1 → d.out2 = Level.LOW →
        (startFiring clock d).1.out1 = Level.HIGH ∧ (startFiring clock d).1.out2 = Level.LOW) ∧
      (d.selectedOutput = 2 → d.out1 = Level.LOW →
        (startFiring clock d).1.out2 = Level.HIGH ∧ (startFiring clock d).1.out1 = Level.LOW)) ∧
    (∀ inps : List Input, (run powerOn inps).isFiring = false →
      (run powerOn inps).out1 = Level.LOW ∧ (run powerOn inps).out2 = Level.LOW) := by
  refine ⟨fun clock d _ => ⟨?_, ?_, ?_, ?_⟩, fun inps hf =>
    (consistent_run inps powerOn consistent_powerOn).1 hf⟩
  · intro hs
    simp [startFiring, digitalWrite, hs]
  · intro hs
    simp [startFiring, digitalWrite, hs, output1Pin, output2Pin]
  · intro hs h2
    simp [startFiring, digitalWrite, hs, h2]
  · intro hs h1
    simp [startFiring, digitalWrite, hs, h1, output1Pin, output2Pin]

/-- Claim C7, amended, at power-on: output 1 HIGH and output 2 LOW. -/
theorem startFiring_idle_spec_witness :
    (startFiring 7 powerOn).1.out1 = Level.HIGH ∧ (startFiring 7 powerOn).1.out2 = Level.LOW :=
  (startFiring_idle_spec.1 7 powerOn rfl).2.2.1 rfl rfl

/-- Claim C6 fails as stated: `startFiring` at clock 5000 on a device whose
session started at 1000 is not rejected; the start time becomes 5000 and
output 1 is written HIGH again. -/
theorem startFiring_no_reject_counterexample :
    firingSample.isFiring = true ∧ firingSample.firingStartTime = 1000 ∧
    firingSample.out1 = Level.HIGH ∧
    (startFiring 5000 firingSample).1.isFiring = true ∧
    (startFiring 5000 firingSample).1.firingStartTime = 5000 ∧
    (startFiring 5000 firingSample).2 = [(output1Pin, Level.HIGH)] := by
  decide

/-- Claim C6, amended: `startFiring` has no failure path.  Called while a
session is active it keeps `isFiring` true, overwrites the start time with the
new clock reading, writes the selected output HIGH and leaves the other output
as it was.  In states reachable from power-on `loop` dispatches on screen
`DURATION_CONFIG`, the only place that calls `startFiring`, only when no session
is active. -/
theorem startFiring_active_spec :
    (∀ (clock : Nat) (d : Device), d.isFiring = true →
      (startFiring clock d).1.isFiring = true ∧
      (startFiring clock d).1.firingStartTime = millis clock ∧
      (d.selectedOutput = 1 →
        (startFiring clock d).1.out1 = Level.HIGH ∧ (startFiring clock d).1.out2 = d.out2 ∧
        (startFiring clock d).2 = [(output1Pin, Level.HIGH)]) ∧
      (d.selectedOutput ≠ 1 →
        (startFiring clock d).1.out2 = Level.HIGH ∧ (startFiring clock d).1.out1 = d.out1 ∧
        (startFiring clock d).2 = [(output2Pin, Level.HIGH)])) ∧
    (∀ (inps : List Input) (inp : Input),
      dispatchScreen inp (run powerOn inps) = State.DURATION_CONFIG →
      (loopTimerCheck inp.clockTimer (loopReadTouchPin inp (run powerOn inps))).1.isFiring
        = false) := by
  refine ⟨fun clock d _ => ⟨?_, ?_, ?_, ?_⟩, fun inps inp hs => ?_⟩
  · simp only [startFiring, digitalWrite]; split_ifs <;> rfl
  · simp only [startFiring, digitalWrite]; split_ifs <;> rfl
  · intro hs
    simp [startFiring, digitalWrite, hs]
  · intro hs
    simp [startFiring, digitalWrite, hs, output1Pin, output2Pin]
  · have hc := consistent_timerCheck inp.clockTimer _
      (consistent_readTouchPin inp _ (consistent_run inps powerOn consistent_powerOn))
    exact idle_of_consistent _ hc (by unfold dispatchScreen at hs; rw [hs]; decide)

/-- Claim C6, amended, at the sample firing state. -/
theorem startFiring_active_spec_witness :
    (startFiring 5000 firingSample).1.firingStartTime = millis 5000 :=
  (startFiring_active_spec.1 5000 firingSample (by decide)).2.1

/-! ### One iteration of `loop`, phase by phase -/

/-- Reading the auxiliary contact leaves the session view alone. -/
theorem loopReadTouchPin_view (inp : Input) (d : Device) :
    sessionView (loopReadTouchPin inp d) = sessionView d := by
  rw [loopReadTouchPin_fields]
  rfl

/-- Without a session the timer check does nothing. -/
theorem loopTimerCheck_idle (clock : Nat) (d : Device) (hf : d.isFiring = false) :
    loopTimerCheck clock d = (d, []) := by
  simp [loopTimerCheck, hf]

/-- Before the deadline the timer check does nothing. -/
theorem loopTimerCheck_running (clock : Nat) (d : Device)
    (h : subULong (millis clock) d.firingStartTime < toULong d.firingDuration) :
    loopTimerCheck clock d = (d, []) := by
  simp only [loopTimerCheck]
  rw [if_neg]
  rintro ⟨_, h2⟩
  omega

/-- At or after the deadline the timer check stops the session. -/
theorem loopTimerCheck_expired (clock : Nat) (d : Device) (hf : d.isFiring = true)
    (h : toULong d.firingDuration ≤ subULong (millis clock) d.firingStartTime) :
    loopTimerCheck clock d =
      ({ d with isFiring := false, out1 := Level.LOW, out2 := Level.LOW,
                curState := State.DURATION_CONFIG },
       [(output1Pin, Level.LOW), (output2Pin, Level.LOW)]) := by
  simp only [loopTimerCheck]
  rw [if_pos ⟨hf, h⟩]
  rfl

/-- The fire test is disjoint from the four tests tried before it. -/
theorem fireRegion_excludes (x y : Nat) (h : fireRegion x y) :
    ¬ out1Region x y ∧ ¬ out2Region x y ∧ ¬ decrementRegion x y ∧ ¬ incrementRegion x y := by
  simp only [fireRegion, out1Region, out2Region, decrementRegion, incrementRegion,
    SCREEN_WIDTH, SCREEN_HEIGHT] at *
  omega

/-- A touch on the fire button reaches the fire branch. -/
theorem loopDurationConfig_fire (inp : Input) (d : Device) (x y : Nat)
    (ht : inp.touch = some (x, y)) (h : fireRegion x y) :
    ∃ d1, loopDurationConfig inp d = loopFire inp.clockStart d1 ∧
      sessionView d1 = sessionView d := by
  obtain ⟨h1, h2, h3, h4⟩ := fireRegion_excludes x y h
  simp only [loopDurationConfig, ht, if_neg h1, if_neg h2, if_neg h3, if_neg h4, if_pos h]
  refine ⟨_, rfl, ?_⟩
  split_ifs <;> rfl

/-- Away from the fire button the `DURATION_CONFIG` arm starts nothing. -/
theorem loopDurationConfig_nofire (inp : Input) (d : Device)
    (h : ∀ x y, inp.touch = some (x, y) → ¬ fireRegion x y) :
    (loopDurationConfig inp d).1.isFiring = d.isFiring ∧
    (loopDurationConfig inp d).1.out1 = d.out1 ∧
    (loopDurationConfig inp d).1.out2 = d.out2 ∧
    (loopDurationConfig inp d).1.curState = d.curState ∧
    (loopDurationConfig inp d).2 = [] := by
  unfold loopDurationConfig
  rcases ht : inp.touch with _ | ⟨x, y⟩ <;> simp only []
  · refine ⟨?_, ?_, ?_, ?_, ?_⟩ <;> first | trivial | (split_ifs <;> rfl)
  · have hn := h x y ht
    simp only [if_neg hn, incrementDuration_eq, decrementDuration_eq]
    refine ⟨?_, ?_, ?_, ?_, ?_⟩ <;> first | trivial | (split_ifs <;> rfl)

/-- A touch meeting no test of the current screen is dispatched like no touch. -/
theorem loopDispatch_no_region (inp : Input) (d : Device) (x y : Nat)
    (ht : inp.touch = some (x, y)) (h : ¬ hitsRegion d.curState x y) :
    loopDispatch inp d = loopDispatch { inp with touch := none } d := by
  simp only [loopDispatch]
  split_ifs with h1 h2 h3
  · rw [h1] at h
    simp only [hitsRegion] at h
    simp only [loopHome, ht, if_neg h]
  · rw [h2] at h
    simp only [hitsRegion, not_or] at h
    obtain ⟨n1, n2, n3, n4, n5⟩ := h
    simp only [loopDurationConfig, ht, if_neg n1, if_neg n2, if_neg n3, if_neg n4, if_neg n5]
  · rfl
  · rfl

/-- With a session active the `FIRING` arm leaves the session view alone. -/
theorem loopFiring_running (d : Device) (hf : d.isFiring = true) :
    sessionView (loopFiring d).1 = sessionView d ∧ (loopFiring d).2 = [] := by
  unfold loopFiring
  simp only []
  split_ifs with h1 h2 h2
  · rw [hf] at h2; exact Bool.noConfusion h2
  · exact ⟨rfl, rfl⟩
  · rw [hf] at h2; exact Bool.noConfusion h2
  · exact ⟨rfl, rfl⟩

/-- Fields of the device after the fire branch. -/
theorem loopFire_fields (clock : Nat) (d : Device) :
    (loopFire clock d).1.curState = State.FIRING ∧
    (loopFire clock d).1.isFiring = true ∧
    (loopFire clock d).1.firingStartTime = millis clock ∧
    (loopFire clock d).1.firingDuration = d.firingDuration ∧
    (loopFire clock d).1.selectedOutput = d.selectedOutput ∧
    (d.selectedOutput = 1 →
      (loopFire clock d).1.out1 = Level.HIGH ∧ (loopFire clock d).1.out2 = d.out2) ∧
    (d.selectedOutput = 2 →
      (loopFire clock d).1.out2 = Level.HIGH ∧ (loopFire clock d).1.out1 = d.out1) := by
  simp only [loopFire, startFiring, digitalWrite]
  refine ⟨?_, ?_, ?_, ?_, ?_, ?_, ?_⟩
  · trivial
  · split_ifs <;> rfl
  · split_ifs <;> rfl
  · split_ifs <;> rfl
  · split_ifs <;> rfl
  · intro hs; simp [hs]
  · intro hs; simp [hs, output1Pin, output2Pin]

/-- Equal session views give equal fields. -/
theorem view_fields (d e : Device) (h : sessionView d = sessionView e) :
    d.firingDuration = e.firingDuration ∧ d.selectedOutput = e.selectedOutput ∧
    d.firingStartTime = e.firingStartTime ∧ d.isFiring = e.isFiring ∧
    d.curState = e.curState ∧ d.out1 = e.out1 ∧ d.out2 = e.out2 := by
  simpa only [sessionView, Prod.mk.injEq] using h

/-- Without a session an iteration is the dispatch alone. -/
theorem loop_idle (inp : Input) (d : Device) (hf : d.isFiring = false) :
    loop inp d = loopDispatch inp (loopReadTouchPin inp d) := by
  have h0 : (loopReadTouchPin inp d).isFiring = false :=
    (view_fields _ _ (loopReadTouchPin_view inp d)).2.2.2.1.trans hf
  simp only [loop, loopTimerCheck_idle _ _ h0, List.nil_append]

/-! ### The fire button -/

/-- Claim C4: in a state reachable from power-on whose screen is
`DURATION_CONFIG`, an iteration that samples a touch with `x > 360` and
`140 < y < 180` ends on screen `FIRING` with an active session whose start
time is the clock read in `startFiring`, the selected output HIGH, the other
output LOW, and `firingDuration` and `selectedOutput` unchanged. -/
theorem fire_touch_starts_session (inps : List Input) (inp : Input) (x y : Nat)
    (hscr : (run powerOn inps).curState = State.DURATION_CONFIG)
    (ht : inp.touch = some (x, y)) (hx : x > 360) (hy1 : 140 < y) (hy2 : y < 180) :
    (loop inp (run powerOn inps)).1.curState = State.FIRING ∧
    (loop inp (run powerOn inps)).1.isFiring = true ∧
    (loop inp (run powerOn inps)).1.firingStartTime = millis inp.clockStart ∧
    (((run powerOn inps).selectedOutput = 1 ∧
        (loop inp (run powerOn inps)).1.out1 = Level.HIGH ∧
        (loop inp (run powerOn inps)).1.out2 = Level.LOW) ∨
     ((run powerOn inps).selectedOutput = 2 ∧
        (loop inp (run powerOn inps)).1.out2 = Level.HIGH ∧
        (loop inp (run powerOn inps)).1.out1 = Level.LOW)) ∧
    (loop inp (run powerOn inps)).1.firingDuration = (run powerOn inps).firingDuration ∧
    (loop inp (run powerOn inps)).1.selectedOutput = (run powerOn inps).selectedOutput := by
  have hc := consistent_run inps powerOn consistent_powerOn
  generalize run powerOn inps = d at *
  have hf := idle_of_consistent d hc (by rw [hscr]; decide)
  have hl := hc.1 hf
  obtain ⟨v1, v2, -, -, v5, v6, v7⟩ := view_fields _ _ (loopReadTouchPin_view inp d)
  have hfire : fireRegion x y := ⟨hx, hy1, hy2⟩
  obtain ⟨d1, he, hv1⟩ := loopDurationConfig_fire inp (loopReadTouchPin inp d) x y ht hfire
  obtain ⟨w1, w2, -, -, -, w6, w7⟩ := view_fields _ _ hv1
  have hloop : loop inp d = loopFire inp.clockStart d1 := by
    rw [loop_idle inp d hf]
    unfold loopDispatch
    rw [if_neg (by rw [v5, hscr]; decide), if_pos (by rw [v5, hscr]), he]
  obtain ⟨f1, f2, f3, f4, f5, f6, f7⟩ := loopFire_fields inp.clockStart d1
  rw [hloop]
  refine ⟨f1, f2, f3, ?_, by rw [f4, w1, v1], by rw [f5, w2, v2]⟩
  have hs1 : d1.selectedOutput = d.selectedOutput := w2.trans v2
  rcases hc.2.2 with hs | hs
  · left
    have := f6 (hs1.trans hs)
    exact ⟨hs, this.1, by rw [this.2, w7, v7]; exact hl.2⟩
  · right
    have := f7 (hs1.trans hs)
    exact ⟨hs, this.1, by rw [this.2, w6, v6]; exact hl.1⟩

set_option maxRecDepth 8192 in
/-- Claim C4 at the two scenarios: duration 1300 on output 1 after three
increments, and duration 100 on output 2 after nine decrements. -/
theorem fire_touch_starts_session_witness :
    ((run powerOn scenarioPlus).firingDuration = 1300 ∧
      (loop (touchAt 5000 400 160) (run powerOn scenarioPlus)).1.curState = State.FIRING ∧
      (loop (touchAt 5000 400 160) (run powerOn scenarioPlus)).1.isFiring = true ∧
      (loop (touchAt 5000 400 160) (run powerOn scenarioPlus)).1.firingStartTime = 5000 ∧
      (loop (touchAt 5000 400 160) (run powerOn scenarioPlus)).1.firingDuration = 1300 ∧
      (loop (touchAt 5000 400 160) (run powerOn scenarioPlus)).1.out1 = Level.HIGH ∧
      (loop (touchAt 5000 400 160) (run powerOn scenarioPlus)).1.out2 = Level.LOW) ∧
    ((run powerOn scenarioMinus).firingDuration = 100 ∧
      (run powerOn scenarioMinus).selectedOutput = 2 ∧
      (loop (touchAt 5000 400 160) (run powerOn scenarioMinus)).1.curState = State.FIRING ∧
      (loop (touchAt 5000 400 160) (run powerOn scenarioMinus)).1.firingDuration = 100 ∧
      (loop (touchAt 5000 400 160) (run powerOn scenarioMinus)).1.out2 = Level.HIGH ∧
      (loop (touchAt 5000 400 160) (run powerOn scenarioMinus)).1.out1 = Level.LOW) := by
  have h1 := fire_touch_starts_session scenarioPlus (touchAt 5000 400 160) 400 160
    (by decide) rfl (by decide) (by decide) (by decide)
  have h2 := fire_touch_starts_session scenarioMinus (touchAt 5000 400 160) 400 160
    (by decide) rfl (by decide) (by decide) (by decide)
  exact ⟨⟨by decide, h1.1, h1.2.1, by decide, by decide, by decide, by decide⟩,
    ⟨by decide, by decide, h2.1, by decide, by decide, by decide⟩⟩

/-! ### Touches outside every region -/

/-- The dispatch screen in terms of the device at the start of the iteration. -/
theorem dispatchScreen_eq (inp : Input) (d : Device) :
    dispatchScreen inp d =
      if d.isFiring = true ∧
          toULong d.firingDuration ≤ subULong (millis inp.clockTimer) d.firingStartTime
      then State.DURATION_CONFIG else d.curState := by
  obtain ⟨v1, -, v3, v4, v5, -, -⟩ := view_fields _ _ (loopReadTouchPin_view inp d)
  simp only [dispatchScreen, loopTimerCheck, v1, v3, v4, ge_iff_le]
  split_ifs
  · rfl
  · exact v5

/-- Claim C9 fails as stated: on screen `FIRING`, which has no regions, the
iteration in which the session expires with a touch at (400, 160) differs from
the same iteration without a touch: it starts a new session. -/
theorem expiring_tick_touch_counterexample :
    firingSample.curState = State.FIRING ∧
    (touchAt 2000 400 160).touch = some (400, 160) ∧
    ¬ hitsRegion firingSample.curState 400 160 ∧
    loop (touchAt 2000 400 160) firingSample
      ≠ loop { touchAt 2000 400 160 with touch := none } firingSample ∧
    (loop (touchAt 2000 400 160) firingSample).1.isFiring = true ∧
    (loop { touchAt 2000 400 160 with touch := none } firingSample).1.isFiring = false := by
  refine ⟨by decide, rfl, ?_, by decide, by decide, by decide⟩
  intro h
  exact h

/-- Claim C9, amended: a touch point that meets no touch test of the screen
on which the iteration dispatches is ignored: device and pin writes equal those
of the same iteration without a touch.  The dispatch screen is the screen at
the start of the iteration, except that it is `DURATION_CONFIG` when an active
session expires in this iteration. -/
theorem touch_outside_regions_ignored (d : Device) (inp : Input) (x y : Nat)
    (ht : inp.touch = some (x, y)) (hno : ¬ hitsRegion (dispatchScreen inp d) x y) :
    loop inp d = loop { inp with touch := none } d ∧
    dispatchScreen inp d =
      (if d.isFiring = true ∧
          toULong d.firingDuration ≤ subULong (millis inp.clockTimer) d.firingStartTime
      then State.DURATION_CONFIG else d.curState) := by
  refine ⟨?_, dispatchScreen_eq inp d⟩
  have h := loopDispatch_no_region inp
    (loopTimerCheck inp.clockTimer (loopReadTouchPin inp d)).1 x y ht hno
  simp only [loop]
  rw [h]
  rfl

/-- Claim C9, amended, on `DURATION_CONFIG` at the point (240, 250). -/
theorem touch_outside_regions_ignored_witness :
    loop (touchAt 50 240 250) configSample = loop (noTouch 50) configSample :=
  (touch_outside_regions_ignored configSample (touchAt 50 240 250) 240 250 rfl
    (by decide)).1

/-! ### Expiry of a session -/

/-- An iteration in which the session expires: both outputs are written LOW, then the `DURATION_CONFIG` arm runs. -/
theorem loop_expired (inp : Input) (d : Device) (hf : d.isFiring = true)
    (h : toULong d.firingDuration ≤ subULong (millis inp.clockTimer) d.firingStartTime) :
    ∃ e, e.isFiring = false ∧ e.out1 = Level.LOW ∧ e.out2 = Level.LOW ∧
      e.curState = State.DURATION_CONFIG ∧
      loop inp d = ((loopDurationConfig inp e).1,
        (output1Pin, Level.LOW) :: (output2Pin, Level.LOW) :: (loopDurationConfig inp e).2) := by
  obtain ⟨v1, -, v3, v4, -, -, -⟩ := view_fields _ _ (loopReadTouchPin_view inp d)
  have hx := loopTimerCheck_expired inp.clockTimer (loopReadTouchPin inp d) (v4.trans hf)
    (by rw [v1, v3]; exact h)
  have hw : (loopTimerCheck inp.clockTimer (loopReadTouchPin inp d)).2
      = [(output1Pin, Level.LOW), (output2Pin, Level.LOW)] := by rw [hx]
  have hcs : (loopTimerCheck inp.clockTimer (loopReadTouchPin inp d)).1.curState
      = State.DURATION_CONFIG := by rw [hx]
  refine ⟨(loopTimerCheck inp.clockTimer (loopReadTouchPin inp d)).1, by rw [hx], by rw [hx],
    by rw [hx], hcs, ?_⟩
  simp only [loop, loopDispatch, hw]
  rw [if_neg (by rw [hcs]; decide), if_pos hcs]
  rfl

/-- Claim C2 fails as stated: a session of 1000 ms started at 1000 is active
again, output 1 HIGH and screen `FIRING`, after the iteration at clock
`1000 + 1000 + 0` when that iteration samples a touch on the fire button; and
it is still active after an iteration at `1000 + 1000 + ε` with
`ε = 2^32 - 1000`, where the 32-bit counter shows the start reading again. -/
theorem restart_on_expiry_counterexample :
    ((loopFire 1000 configSample).1.isFiring = true ∧
      (loopFire 1000 configSample).1.firingStartTime = 1000 ∧
      (loopFire 1000 configSample).1.firingDuration = 1000) ∧
    ((loop (touchAt (1000 + 1000 + 0) 400 160) (loopFire 1000 configSample).1).1.isFiring = true ∧
      (loop (touchAt (1000 + 1000 + 0) 400 160) (loopFire 1000 configSample).1).1.out1
        = Level.HIGH ∧
      (loop (touchAt (1000 + 1000 + 0) 400 160) (loopFire 1000 configSample).1).1.curState
        = State.FIRING) ∧
    ((loop (noTouch (1000 + 1000 + 4294966296)) (loopFire 1000 configSample).1).1.isFiring = true ∧
      (loop (noTouch (1000 + 1000 + 4294966296)) (loopFire 1000 configSample).1).1.out1
        = Level.HIGH ∧
      (loop (noTouch (1000 + 1000 + 4294966296)) (loopFire 1000 configSample).1).1.curState
        = State.FIRING) := by
  decide

/-- Claim C2, amended: after a session of duration `dur` in [100, 10000] has
been started at clock `t` (whatever the selected output), the iteration whose
clock reads `t + dur + ε`, where `dur + ε` is below one counter period `2^32`
and the touch sample is absent or outside the fire region, ends with no
session, both outputs LOW and the screen `DURATION_CONFIG`. -/
theorem session_ends_after_duration (d0 : Device) (t dur ε : Nat) (inp : Input)
    (hd : d0.firingDuration = (dur : Int)) (hlo : 100 ≤ dur) (hhi : dur ≤ 10000)
    (hclock : inp.clockTimer = t + dur + ε) (hwrap : dur + ε < ULONG_MOD)
    (htouch : ∀ x y, inp.touch = some (x, y) → ¬ fireRegion x y) :
    (loop inp (loopFire t d0).1).1.isFiring = false ∧
    (loop inp (loopFire t d0).1).1.out1 = Level.LOW ∧
    (loop inp (loopFire t d0).1).1.out2 = Level.LOW ∧
    (loop inp (loopFire t d0).1).1.curState = State.DURATION_CONFIG := by
  obtain ⟨-, f2, f3, f4, -, -, -⟩ := loopFire_fields t d0
  have hexp : toULong (loopFire t d0).1.firingDuration
      ≤ subULong (millis inp.clockTimer) (loopFire t d0).1.firingStartTime := by
    rw [f3, f4, hd, hclock, Nat.add_assoc, subULong_millis_add,
      toULong_of_nonneg _ (by omega) (by omega)]
    simp only [ULONG_MOD] at hwrap
    omega
  obtain ⟨e, e1, e2, e3, e4, he⟩ := loop_expired inp _ f2 hexp
  obtain ⟨n1, n2, n3, n4, -⟩ := loopDurationConfig_nofire inp e htouch
  rw [he]
  exact ⟨n1.trans e1, n2.trans e2, n3.trans e3, n4.trans e4⟩

/-- Claim C2, amended, at the 1300 ms scenario with a touch on "+" in the expiry iteration. -/
theorem session_ends_after_duration_witness :
    (loop (touchAt (5000 + 1300 + 37) 300 260) (loopFire 5000 (run powerOn scenarioPlus)).1).1.isFiring
        = false ∧
    (loop (touchAt (5000 + 1300 + 37) 300 260) (loopFire 5000 (run powerOn scenarioPlus)).1).1.out1
        = Level.LOW ∧
    (loop (touchAt (5000 + 1300 + 37) 300 260) (loopFire 5000 (run powerOn scenarioPlus)).1).1.out2
        = Level.LOW ∧
    (loop (touchAt (5000 + 1300 + 37) 300 260)
        (loopFire 5000 (run powerOn scenarioPlus)).1).1.curState = State.DURATION_CONFIG :=
  session_ends_after_duration (run powerOn scenarioPlus) 5000 1300 37
    (touchAt (5000 + 1300 + 37) 300 260) (by decide) (by decide) (by decide) rfl (by decide)
    (by intro x y h; cases h; decide)

/-! ### Energised time of a session -/

/-- An iteration before the deadline on screen `FIRING` changes nothing of the session and writes no pin. -/
theorem loop_running (inp : Input) (d : Device) (hf : d.isFiring = true)
    (hs : d.curState = State.FIRING)
    (h : subULong (millis inp.clockTimer) d.firingStartTime < toULong d.firingDuration) :
    sessionView (loop inp d).1 = sessionView d ∧ (loop inp d).2 = [] := by
  have hv := loopReadTouchPin_view inp d
  obtain ⟨v1, -, v3, v4, v5, -, -⟩ := view_fields _ _ hv
  have hx := loopTimerCheck_running inp.clockTimer (loopReadTouchPin inp d)
    (by rw [v1, v3]; exact h)
  have hr := loopFiring_running (loopReadTouchPin inp d) (v4.trans hf)
  have hl : loop inp d = loopFiring (loopReadTouchPin inp d) := by
    simp only [loop, hx, loopDispatch, List.nil_append]
    rw [if_neg (by rw [v5, hs]; decide), if_neg (by rw [v5, hs]; decide),
      if_pos (by rw [v5, hs])]
  rw [hl]
  exact ⟨hr.1.trans hv, hr.2⟩

/-- Iterations before the deadline change nothing of the session and write no pin. -/
theorem run_running (pre : List Input) (d : Device) (hf : d.isFiring = true)
    (hs : d.curState = State.FIRING)
    (h : ∀ j ∈ pre,
      subULong (millis j.clockTimer) d.firingStartTime < toULong d.firingDuration) :
    sessionView (run d pre) = sessionView d ∧ runWrites d pre = [] := by
  induction pre generalizing d with
  | nil => exact ⟨rfl, rfl⟩
  | cons a rest ih =>
    obtain ⟨hv, hw⟩ := loop_running a d hf hs (h a (List.mem_cons_self a rest))
    obtain ⟨v1, -, v3, v4, v5, -, -⟩ := view_fields _ _ hv
    have hi := ih (loop a d).1 (v4.trans hf) (v5.trans hs) (fun j hj => by
      rw [v1, v3]; exact h j (List.mem_cons_of_mem a hj))
    simp only [run, runWrites, hw, List.nil_append]
    exact ⟨hi.1.trans hv, hi.2⟩

/-- Facts about the reading of an iteration inside a well-stepped clock sequence. -/
theorem clockSteps_split (P t0 : Nat) (pre : List Input) (i : Input) (rest : List Input)
    (h : ClockSteps P t0 (pre ++ i :: rest)) :
    (∀ j ∈ pre, t0 ≤ j.clockTimer ∧ j.clockTimer ≤ i.clockTimer) ∧
    t0 ≤ i.clockTimer ∧ i.clockTimer < ULONG_MOD ∧
    (i.clockTimer ≤ t0 + P ∨ ∃ j ∈ pre, i.clockTimer ≤ j.clockTimer + P) := by
  induction pre generalizing t0 with
  | nil =>
    simp only [List.nil_append, ClockSteps] at h
    exact ⟨fun j hj => absurd hj (List.not_mem_nil j), h.1, h.2.2.1, Or.inl h.2.1⟩
  | cons a pre ih =>
    simp only [List.cons_append, ClockSteps] at h
    obtain ⟨h1, -, -, h4⟩ := h
    obtain ⟨i1, i2, i3, i4⟩ := ih a.clockTimer h4
    refine ⟨?_, le_trans h1 i2, i3, ?_⟩
    · intro j hj
      rcases List.mem_cons.mp hj with rfl | hj
      · exact ⟨h1, i2⟩
      · exact ⟨le_trans h1 (i1 j hj).1, (i1 j hj).2⟩
    · rcases i4 with h | ⟨j, hj, h⟩
      · exact Or.inr ⟨a, List.mem_cons_self a pre, h⟩
      · exact Or.inr ⟨j, List.mem_cons_of_mem a hj, h⟩

/-- Elapsed time between two readings when the counter has not wrapped. -/
theorem elapsed_no_wrap (t0 c : Nat) (h0 : t0 ≤ c) (hc : c < ULONG_MOD) :
    subULong (millis c) (millis t0) = c - t0 := by
  simp only [subULong, millis, ULONG_MOD] at *
  omega

/-- Claim C3: let a session of duration `dur` in [100, 10000] start at reading
`t0`, and let the following iterations read a clock that never decreases,
advances by at most `P` per iteration (the first one counted from `t0`) and has
not wrapped.  Whatever the touch inputs: after every iteration whose reading
`t` has `t - t0 < dur` the session is active, the selected output is HIGH and
no pin has been written; in the first iteration with `t - t0 ≥ dur` the loop
writes both outputs LOW (`stopFiring`), and there `t - t0 ≤ dur + P`. -/
theorem energized_time_bounds (P t0 dur : Nat) (d0 : Device) (inps : List Input)
    (hd : d0.firingDuration = (dur : Int)) (hlo : 100 ≤ dur) (hhi : dur ≤ 10000)
    (hclock : ClockSteps P t0 inps) :
    (∀ pre i rest, inps = pre ++ i :: rest → i.clockTimer - t0 < dur →
      (run (loopFire t0 d0).1 (pre ++ [i])).isFiring = true ∧
      outLevel (run (loopFire t0 d0).1 (pre ++ [i])) d0.selectedOutput = Level.HIGH ∧
      runWrites (loopFire t0 d0).1 (pre ++ [i]) = []) ∧
    (∀ pre i rest, inps = pre ++ i :: rest →
      (∀ j ∈ pre, j.clockTimer - t0 < dur) → dur ≤ i.clockTimer - t0 →
      i.clockTimer - t0 ≤ dur + P ∧
      ∃ w, (loop i (run (loopFire t0 d0).1 pre)).2
        = (output1Pin, Level.LOW) :: (output2Pin, Level.LOW) :: w) := by
  obtain ⟨f1, f2, f3, f4, f5, f6, f7⟩ := loopFire_fields t0 d0
  have hdur : toULong (loopFire t0 d0).1.firingDuration = dur := by
    rw [f4, hd, toULong_of_nonneg _ (by omega) (by omega)]; omega
  have hhigh : outLevel (loopFire t0 d0).1 d0.selectedOutput = Level.HIGH := by
    simp only [loopFire, startFiring, digitalWrite, outLevel]
    split_ifs <;> simp_all [output1Pin, output2Pin]
  have hrun : ∀ l : List Input, (∀ j ∈ l, t0 ≤ j.clockTimer ∧ j.clockTimer < ULONG_MOD ∧
      j.clockTimer - t0 < dur) →
      sessionView (run (loopFire t0 d0).1 l) = sessionView (loopFire t0 d0).1 ∧
      runWrites (loopFire t0 d0).1 l = [] := by
    intro l hl
    apply run_running l _ f2 f1
    intro j hj
    obtain ⟨a, b, c⟩ := hl j hj
    rw [f3, hdur, elapsed_no_wrap t0 _ a b]
    exact c
  constructor
  · intro pre i rest he hi
    subst he
    obtain ⟨c1, c2, c3, -⟩ := clockSteps_split P t0 pre i rest hclock
    obtain ⟨hv, hw⟩ := hrun (pre ++ [i]) (by
      intro j hj
      rcases List.mem_append.mp hj with hj | hj
      · have := c1 j hj
        exact ⟨this.1, lt_of_le_of_lt this.2 c3, by omega⟩
      · rw [List.mem_singleton.mp hj]
        exact ⟨c2, c3, hi⟩)
    obtain ⟨-, -, -, v4, -, v6, v7⟩ := view_fields _ _ hv
    refine ⟨v4.trans f2, ?_, hw⟩
    rw [← hhigh]
    simp only [outLevel, v6, v7]
  · intro pre i rest he hpre hi
    subst he
    obtain ⟨c1, c2, c3, c4⟩ := clockSteps_split P t0 pre i rest hclock
    obtain ⟨hv, -⟩ := hrun pre (by
      intro j hj
      have := c1 j hj
      exact ⟨this.1, lt_of_le_of_lt this.2 c3, hpre j hj⟩)
    obtain ⟨v1, -, v3, v4, -, -, -⟩ := view_fields _ _ hv
    constructor
    · rcases c4 with h | ⟨j, hj, h⟩
      · omega
      · have := hpre j hj
        have := (c1 j hj).1
        omega
    · obtain ⟨e, -, -, -, -, he⟩ := loop_expired i (run (loopFire t0 d0).1 pre) (v4.trans f2) (by
        rw [v1, v3, f3, hdur, elapsed_no_wrap t0 _ c2 c3]
        exact hi)
      exact ⟨_, by rw [he]⟩

/-- Claim C3 at a 1300 ms session started at 5000 with readings 5050, 6290, 6340. -/
theorem energized_time_bounds_witness :
    (run (loopFire 5000 (run powerOn scenarioPlus)).1 [noTouch 5050, touchAt 6290 400 160]).isFiring
      = true ∧
    (∃ w, (loop (noTouch 6340)
        (run (loopFire 5000 (run powerOn scenarioPlus)).1 [noTouch 5050, touchAt 6290 400 160])).2
      = (output1Pin, Level.LOW) :: (output2Pin, Level.LOW) :: w) := by
  have h := energized_time_bounds 1250 5000 1300 (run powerOn scenarioPlus)
    [noTouch 5050, touchAt 6290 400 160, noTouch 6340] (by decide) (by decide) (by decide)
    (by decide)
  exact ⟨(h.1 [noTouch 5050] (touchAt 6290 400 160) [noTouch 6340] rfl (by decide)).1,
    (h.2 [noTouch 5050, touchAt 6290 400 160] (noTouch 6340) [] rfl (by decide) (by decide)).2⟩
end TrainingCharger
